import Mathlib

set_option autoImplicit false

/-!
Shallow embedding of the Play Store download automation script
(`runPlayStoreDownloadFlow`, `runAllDevices`, the config loader and the
main-module exit logic) together with theorems settling the specification
claims about it.

External effects (the webdriverio remote session) are modelled by an
environment record that fixes the outcome of every remote operation a run
performs: each fallible remote call is an `Except String` value (errors are
identified with their message strings, as the script only ever inspects
`error.message`).  The run itself is then a total function from that
environment to the returned result plus the trace of remote calls it makes.
-/

/-- Observable behaviour of one candidate `(name, selector)` entry of a
multi-strategy resolution list (the `searchStrategies` / `appResultStrategies`
loops): `driver.$(selector)` may throw; otherwise it yields an element handle
whose `isDisplayed()` call may throw or report visibility, and — when visible —
whose `click()` may throw (all three awaits sit inside the loop's `try`). -/
inductive CandBehavior where
  /-- `driver.$(selector)` itself throws; the loop variable keeps its prior value. -/
  | resolveThrows : CandBehavior
  /-- `driver.$` succeeds (the loop variable is assigned) but `isDisplayed()` throws. -/
  | displayedThrows : CandBehavior
  /-- `driver.$` succeeds and `isDisplayed()` returns `visible`; when the element is
  visible, `clickThrows` tells whether the subsequent `click()` call throws. -/
  | displayed (visible : Bool) (clickThrows : Bool) : CandBehavior
deriving DecidableEq, Repr

/-- Events produced while scanning a candidate list, tagged with the 0-based
index of the candidate they touch. -/
inductive ResEvent where
  | resolveCall (i : Nat) : ResEvent
  | displayedCall (i : Nat) : ResEvent
  | clickCall (i : Nat) : ResEvent
deriving DecidableEq, Repr

/-- Candidate index an event refers to. -/
def eventIdx : ResEvent → Nat
  | ResEvent.resolveCall i => i
  | ResEvent.displayedCall i => i
  | ResEvent.clickCall i => i

/-- Result of running one of the `for (const strategy of ...)` loops:
`lastResolved` is the value of the loop variable (`searchElement` /
`appElement`) when the loop ends — the index of the last candidate whose
`driver.$` call succeeded, `none` if no resolution ever succeeded;
`clicked` is the candidate on which a `click()` succeeded and broke the loop
(`none` if the loop ran to exhaustion); `trace` lists the calls made. -/
structure ResolveState where
  lastResolved : Option Nat
  clicked : Option Nat
  trace : List ResEvent
deriving DecidableEq, Repr

/-- The strategy loop of the script, one candidate at a time.  `i` is the index
of the head candidate and `last` the current value of the loop variable.
Mirrors lines 146-158 (and 190-202) of the script: a throw anywhere in the
`try` is caught and the scan continues; only a visible element whose click
succeeds reaches the `break`. -/
def resolveLoopAux : List CandBehavior → Nat → Option Nat → ResolveState
  | [], _, last => ⟨last, none, []⟩
  | CandBehavior.resolveThrows :: rest, i, last =>
    let s := resolveLoopAux rest (i + 1) last
    ⟨s.lastResolved, s.clicked, ResEvent.resolveCall i :: s.trace⟩
  | CandBehavior.displayedThrows :: rest, i, _ =>
    let s := resolveLoopAux rest (i + 1) (some i)
    ⟨s.lastResolved, s.clicked, ResEvent.resolveCall i :: ResEvent.displayedCall i :: s.trace⟩
  | CandBehavior.displayed false _ :: rest, i, _ =>
    let s := resolveLoopAux rest (i + 1) (some i)
    ⟨s.lastResolved, s.clicked, ResEvent.resolveCall i :: ResEvent.displayedCall i :: s.trace⟩
  | CandBehavior.displayed true true :: rest, i, _ =>
    let s := resolveLoopAux rest (i + 1) (some i)
    ⟨s.lastResolved, s.clicked,
      ResEvent.resolveCall i :: ResEvent.displayedCall i :: ResEvent.clickCall i :: s.trace⟩
  | CandBehavior.displayed true false :: _, i, _ =>
    ⟨some i, some i, [ResEvent.resolveCall i, ResEvent.displayedCall i, ResEvent.clickCall i]⟩

/-- Run a strategy loop from its start: index 0, loop variable `null`. -/
def resolveLoop (bs : List CandBehavior) : ResolveState :=
  resolveLoopAux bs 0 none

/-- A candidate that "throws during resolution or resolves to a non-visible
element" (the hypothesis vocabulary of the resolution claims). -/
def throwsOrNonVisible : CandBehavior → Bool
  | CandBehavior.resolveThrows => true
  | CandBehavior.displayedThrows => true
  | CandBehavior.displayed v _ => !v

/-- Error message of line 161 of the script. -/
def searchBoxNotFoundMsg : String := " Search box not found."

/-- Error message of line 205 of the script (interpolating the app name). -/
def appNotFoundMsg (app : String) : String := s!"\x22{app}\x22 not found in results."

/-- Step 6 (script lines 145-162): run the search-box strategy loop, then throw
iff the loop variable `searchElement` is still `null` — i.e. iff no
`driver.$` call ever succeeded. -/
def searchBoxStep (bs : List CandBehavior) : Except String Unit :=
  match (resolveLoop bs).lastResolved with
  | none => Except.error searchBoxNotFoundMsg
  | some _ => Except.ok ()

/-- Step 8 (script lines 189-206): same loop shape for the result entry, with
the app-specific error message. -/
def appResultStep (app : String) (bs : List CandBehavior) : Except String Unit :=
  match (resolveLoop bs).lastResolved with
  | none => Except.error (appNotFoundMsg app)
  | some _ => Except.ok ()

theorem resolveLoopAux_lastResolved_none (bs : List CandBehavior) :
    ∀ (i : Nat) (last : Option Nat),
      (resolveLoopAux bs i last).lastResolved = none ↔
        (last = none ∧ ∀ b ∈ bs, b = CandBehavior.resolveThrows) := by
  induction bs with
  | nil => intro i last; simp [resolveLoopAux]
  | cons b rest ih =>
    intro i last
    cases b with
    | resolveThrows =>
      simp [resolveLoopAux, ih (i + 1) last]
    | displayedThrows =>
      simp [resolveLoopAux, ih (i + 1) (some i)]
    | displayed v c =>
      cases v with
      | false =>
        simp [resolveLoopAux, ih (i + 1) (some i)]
      | true =>
        cases c with
        | true => simp [resolveLoopAux, ih (i + 1) (some i)]
        | false => simp [resolveLoopAux]

theorem resolveLoopAux_firstVisible (post : List CandBehavior) :
    ∀ (pre : List CandBehavior) (i : Nat) (last : Option Nat),
      (∀ b ∈ pre, throwsOrNonVisible b = true) →
      (resolveLoopAux (pre ++ CandBehavior.displayed true false :: post) i last).clicked
          = some (i + pre.length) ∧
      (resolveLoopAux (pre ++ CandBehavior.displayed true false :: post) i last).trace.count
          (ResEvent.clickCall (i + pre.length)) = 1 ∧
      (∀ e ∈ (resolveLoopAux (pre ++ CandBehavior.displayed true false :: post) i last).trace,
          eventIdx e ≤ i + pre.length) ∧
      (∀ j, ResEvent.clickCall j ∈
          (resolveLoopAux (pre ++ CandBehavior.displayed true false :: post) i last).trace →
          j = i + pre.length) := by
  intro pre
  induction pre with
  | nil =>
    intro i last h
    refine ⟨by simp [resolveLoopAux], by simp [resolveLoopAux, List.count_cons], ?_, ?_⟩
    · intro e he
      simp [resolveLoopAux] at he
      rcases he with rfl | rfl | rfl <;> simp [eventIdx]
    · intro j hj
      simp [resolveLoopAux] at hj
      simpa using hj
  | cons b rest ih =>
    intro i last h
    have hb : throwsOrNonVisible b = true := h b (by simp)
    have hrest : ∀ x ∈ rest, throwsOrNonVisible x = true := fun x hx => h x (by simp [hx])
    have harith : i + 1 + rest.length = i + (b :: rest).length := by simp; omega
    cases b with
    | resolveThrows =>
      obtain ⟨h1, h2, h3, h4⟩ := ih (i + 1) last hrest
      rw [harith] at h1 h2 h3 h4
      refine ⟨by simpa [resolveLoopAux] using h1, ?_, ?_, ?_⟩
      · simpa [resolveLoopAux, List.count_cons] using h2
      · intro e he
        simp [resolveLoopAux] at he
        rcases he with rfl | he2
        · simp [eventIdx]
        · exact h3 e he2
      · intro j hj
        simp [resolveLoopAux] at hj
        exact h4 j hj
    | displayedThrows =>
      obtain ⟨h1, h2, h3, h4⟩ := ih (i + 1) (some i) hrest
      rw [harith] at h1 h2 h3 h4
      refine ⟨by simpa [resolveLoopAux] using h1, ?_, ?_, ?_⟩
      · simpa [resolveLoopAux, List.count_cons] using h2
      · intro e he
        simp [resolveLoopAux] at he
        rcases he with rfl | rfl | he2
        · simp [eventIdx]
        · simp [eventIdx]
        · exact h3 e he2
      · intro j hj
        simp [resolveLoopAux] at hj
        exact h4 j hj
    | displayed v c =>
      have hv : v = false := by
        cases v
        · rfl
        · simp [throwsOrNonVisible] at hb
      subst hv
      obtain ⟨h1, h2, h3, h4⟩ := ih (i + 1) (some i) hrest
      rw [harith] at h1 h2 h3 h4
      refine ⟨by simpa [resolveLoopAux] using h1, ?_, ?_, ?_⟩
      · simpa [resolveLoopAux, List.count_cons] using h2
      · intro e he
        simp [resolveLoopAux] at he
        rcases he with rfl | rfl | he2
        · simp [eventIdx]
        · simp [eventIdx]
        · exact h3 e he2
      · intro j hj
        simp [resolveLoopAux] at hj
        exact h4 j hj

/-- Claim C1 counterexample: a single-candidate list whose candidate resolves to
a non-visible element.  Every candidate "throws during resolution or resolves to
a non-visible element", yet the search-box step does not fail — the loop
variable retains the non-visible element, so the `!searchElement` guard on
line 160 passes and the non-visible candidate is accepted as the found
element. -/
theorem C1_nonvisible_accepted_cex :
    (∀ b ∈ [CandBehavior.displayed false false], throwsOrNonVisible b = true) ∧
    searchBoxStep [CandBehavior.displayed false false] = Except.ok () ∧
    (resolveLoop [CandBehavior.displayed false false]).lastResolved = some 0 :=
  ⟨by decide, rfl, rfl⟩

/-- Claim C1, amended: the enclosing step fails with its element-not-found
error (" Search box not found." for step 6, the app-name message for step 8)
iff EVERY candidate's `driver.$` resolution call throws.  If any candidate
resolves — even to a non-visible element — the loop variable is non-null, the
step does not fail, and the (possibly non-visible) last-resolved candidate is
accepted as the found element. -/
theorem C1_step_fails_iff_all_resolution_throws (bs : List CandBehavior) (app : String) :
    (searchBoxStep bs = Except.error searchBoxNotFoundMsg ↔
      ∀ b ∈ bs, b = CandBehavior.resolveThrows) ∧
    (appResultStep app bs = Except.error (appNotFoundMsg app) ↔
      ∀ b ∈ bs, b = CandBehavior.resolveThrows) := by
  have hnone := resolveLoopAux_lastResolved_none bs 0 none
  simp only [true_and] at hnone
  constructor
  · unfold searchBoxStep
    rw [← resolveLoop] at hnone
    rcases hres : (resolveLoop bs).lastResolved with _ | k
    · simpa using hnone.mp hres
    · simp only [hres] at hnone
      simp at hnone
      simpa using hnone
  · unfold appResultStep
    rw [← resolveLoop] at hnone
    rcases hres : (resolveLoop bs).lastResolved with _ | k
    · simpa using hnone.mp hres
    · simp only [hres] at hnone
      simp at hnone
      simpa using hnone

/-- Claim C5 counterexample: the first candidate resolves to a visible element
(the "K = 0" instance of the claim), but its `click()` — which sits inside the
same `try` — throws; the error is swallowed and the scan continues, so the
first candidate is NOT selected (`clicked = none`) and a resolution call is
made on the candidate after it. -/
theorem C5_click_throw_continues_cex :
    (resolveLoop [CandBehavior.displayed true true, CandBehavior.resolveThrows]).clicked ≠
        some 0 ∧
    ResEvent.resolveCall 1 ∈
      (resolveLoop [CandBehavior.displayed true true, CandBehavior.resolveThrows]).trace := by
  decide

/-- Claim C5, amended: if the first K candidates throw during resolution or
resolve to non-visible elements, the (K+1)-th resolves to a visible element AND
the click on it succeeds, then the scan selects the (K+1)-th candidate, makes
exactly one click call (on it and on no other candidate), and touches no
candidate beyond the (K+1)-th.  (If the click on the visible candidate throws,
the swallowed-error loop continues past it instead.) -/
theorem C5_first_visible_short_circuit (pre post : List CandBehavior)
    (h : ∀ b ∈ pre, throwsOrNonVisible b = true) :
    (resolveLoop (pre ++ CandBehavior.displayed true false :: post)).clicked
        = some pre.length ∧
    (resolveLoop (pre ++ CandBehavior.displayed true false :: post)).trace.count
        (ResEvent.clickCall pre.length) = 1 ∧
    (∀ e ∈ (resolveLoop (pre ++ CandBehavior.displayed true false :: post)).trace,
        eventIdx e ≤ pre.length) ∧
    (∀ j, ResEvent.clickCall j ∈
        (resolveLoop (pre ++ CandBehavior.displayed true false :: post)).trace →
        j = pre.length) := by
  have := resolveLoopAux_firstVisible post pre 0 none h
  simpa [resolveLoop] using this

/-- Witness for the amended Claim C5 at K = 1: one throwing candidate, then a
visible one, then a trailing candidate that is never touched. -/
theorem C5_first_visible_short_circuit_witness :
    (resolveLoop [CandBehavior.resolveThrows, CandBehavior.displayed true false,
        CandBehavior.resolveThrows]).clicked = some 1 ∧
    (resolveLoop [CandBehavior.resolveThrows, CandBehavior.displayed true false,
        CandBehavior.resolveThrows]).trace.count (ResEvent.clickCall 1) = 1 :=
  ⟨(C5_first_visible_short_circuit [CandBehavior.resolveThrows]
      [CandBehavior.resolveThrows] (by decide)).1,
   (C5_first_visible_short_circuit [CandBehavior.resolveThrows]
      [CandBehavior.resolveThrows] (by decide)).2.1⟩

/-- Outcome record of one device run (the object literals returned on lines
247-252 and 271-277 of the script). -/
structure RunResult where
  device : String
  success : Bool
  duration : Nat
  error : Option String
  sessionId : Option String
deriving DecidableEq, Repr

/-- Remote calls a device run can make, for the run's call trace. -/
inductive RemoteCall where
  | sessionOpen : RemoteCall
  | getSessionId : RemoteCall
  | findElement : RemoteCall
  | isDisplayed : RemoteCall
  | click : RemoteCall
  | setValue : RemoteCall
  | pressKey : RemoteCall
  | pauseCall : RemoteCall
  | deleteSession : RemoteCall
deriving DecidableEq, Repr

/-- Remote call made by a strategy-loop event. -/
def candCalls : ResEvent → RemoteCall
  | ResEvent.resolveCall _ => RemoteCall.findElement
  | ResEvent.displayedCall _ => RemoteCall.isDisplayed
  | ResEvent.clickCall _ => RemoteCall.click

/-- Calls made during step 10 (script lines 210-236): locating and probing the
Install button and, in its else-branch, the Open/Update button. -/
inductive BtnEvent where
  | installFind : BtnEvent
  | installCheck : BtnEvent
  | installClickE : BtnEvent
  | openFind : BtnEvent
  | openCheck : BtnEvent
  | openClickE : BtnEvent
deriving DecidableEq, Repr

/-- Remote call made by a step-10 event. -/
def btnCalls : BtnEvent → RemoteCall
  | BtnEvent.installFind => RemoteCall.findElement
  | BtnEvent.installCheck => RemoteCall.isDisplayed
  | BtnEvent.installClickE => RemoteCall.click
  | BtnEvent.openFind => RemoteCall.findElement
  | BtnEvent.openCheck => RemoteCall.isDisplayed
  | BtnEvent.openClickE => RemoteCall.click

/-- Fixed outcomes of the remote operations of step 10: resolution and
visibility check of the Install button, its click, and the same three for the
Open/Update button. -/
structure InstallEnv where
  installResolve : Except String Unit
  installDisplayed : Except String Bool
  installClickRes : Except String Unit
  openResolve : Except String Unit
  openDisplayed : Except String Bool
  openClickRes : Except String Unit
deriving Repr

/-- Environment of one device run: the credentials visible to the process and
the outcome of every remote operation the run may perform, in program order.
`username`/`accessKey` are `none` when the environment variable is unset or
empty (both falsy for the line 76 check).  `elapsedMs` is the wall-clock span
`endTime - startTime` observed when the run computes its duration. -/
structure DeviceEnv where
  username : Option String
  accessKey : Option String
  remoteResult : Except String Unit
  sessionIdResult : Except String String
  searchCands : List CandBehavior
  inputResolve : Except String Unit
  inputDisplayed : Except String Bool
  setValueRes : Except String Unit
  pressKeyRes : Except String Unit
  appCands : List CandBehavior
  install : InstallEnv
  appToSearch : String
  elapsedMs : Nat
deriving Repr

/-- Error message of line 77 of the script. -/
def credsMissingMsg : String := " LambdaTest credentials missing! Check your .env file"

/-- Error message of line 175 of the script. -/
def textFieldMsg : String := " Text field not found."

/-- Error message of line 234 of the script. -/
def noButtonMsg : String := " \x27Install\x27 or \x27Open\x27 button not found."

/-- `Math.round(ms / 1000)` on a non-negative millisecond count. -/
def jsRound (ms : Nat) : Nat := (ms + 500) / 1000

/-- Is an `Except` a success? -/
def exOk {α : Type} : Except String α → Bool
  | Except.ok _ => true
  | Except.error _ => false

/-- Step 10 of the flow (script lines 210-236): resolve the Install button and
check its visibility; if visible, click it; otherwise resolve the Open/Update
button and check its visibility; if visible, click it; if neither is visible,
throw the no-actionable-button error.  Any throw from the remote operations
propagates (this block has no local try/catch). -/
def installStep (e : InstallEnv) : Except String Unit × List BtnEvent :=
  match e.installResolve with
  | Except.error m => (Except.error m, [BtnEvent.installFind])
  | Except.ok _ =>
    match e.installDisplayed with
    | Except.error m => (Except.error m, [BtnEvent.installFind, BtnEvent.installCheck])
    | Except.ok true =>
      match e.installClickRes with
      | Except.error m =>
        (Except.error m, [BtnEvent.installFind, BtnEvent.installCheck, BtnEvent.installClickE])
      | Except.ok _ =>
        (Except.ok (), [BtnEvent.installFind, BtnEvent.installCheck, BtnEvent.installClickE])
    | Except.ok false =>
      match e.openResolve with
      | Except.error m =>
        (Except.error m, [BtnEvent.installFind, BtnEvent.installCheck, BtnEvent.openFind])
      | Except.ok _ =>
        match e.openDisplayed with
        | Except.error m =>
          (Except.error m,
            [BtnEvent.installFind, BtnEvent.installCheck, BtnEvent.openFind, BtnEvent.openCheck])
        | Except.ok true =>
          match e.openClickRes with
          | Except.error m =>
            (Except.error m,
              [BtnEvent.installFind, BtnEvent.installCheck, BtnEvent.openFind,
                BtnEvent.openCheck, BtnEvent.openClickE])
          | Except.ok _ =>
            (Except.ok (),
              [BtnEvent.installFind, BtnEvent.installCheck, BtnEvent.openFind,
                BtnEvent.openCheck, BtnEvent.openClickE])
        | Except.ok false =>
          (Except.error noButtonMsg,
            [BtnEvent.installFind, BtnEvent.installCheck, BtnEvent.openFind, BtnEvent.openCheck])

/-- The `try` block of `runPlayStoreDownloadFlow` (script lines 71-252): on
success yields the session id; any failure yields the error's message.  Also
returns the trace of remote calls made and whether `driver` was assigned (the
condition the `finally` block tests on line 280). -/
def tryBody (env : DeviceEnv) : Except String String × List RemoteCall × Bool :=
  if env.username.isNone || env.accessKey.isNone then
    (Except.error credsMissingMsg, [], false)
  else
    match env.remoteResult with
    | Except.error e => (Except.error e, [RemoteCall.sessionOpen], false)
    | Except.ok _ =>
      match env.sessionIdResult with
      | Except.error e =>
        (Except.error e, [RemoteCall.sessionOpen, RemoteCall.getSessionId], true)
      | Except.ok sid =>
        let t0 : List RemoteCall :=
          [RemoteCall.sessionOpen, RemoteCall.getSessionId, RemoteCall.pauseCall]
        let sTr := (resolveLoop env.searchCands).trace.map candCalls
        match searchBoxStep env.searchCands with
        | Except.error e => (Except.error e, t0 ++ sTr, true)
        | Except.ok _ =>
          match env.inputResolve with
          | Except.error e => (Except.error e, t0 ++ sTr ++ [RemoteCall.findElement], true)
          | Except.ok _ =>
            match env.inputDisplayed with
            | Except.error e =>
              (Except.error e,
                t0 ++ sTr ++ [RemoteCall.findElement, RemoteCall.isDisplayed], true)
            | Except.ok false =>
              (Except.error textFieldMsg,
                t0 ++ sTr ++ [RemoteCall.findElement, RemoteCall.isDisplayed], true)
            | Except.ok true =>
              match env.setValueRes with
              | Except.error e =>
                (Except.error e,
                  t0 ++ sTr ++
                    [RemoteCall.findElement, RemoteCall.isDisplayed, RemoteCall.setValue], true)
              | Except.ok _ =>
                match env.pressKeyRes with
                | Except.error e =>
                  (Except.error e,
                    t0 ++ sTr ++
                      [RemoteCall.findElement, RemoteCall.isDisplayed, RemoteCall.setValue,
                        RemoteCall.pressKey], true)
                | Except.ok _ =>
                  let t1 := t0 ++ sTr ++
                    [RemoteCall.findElement, RemoteCall.isDisplayed, RemoteCall.setValue,
                      RemoteCall.pressKey, RemoteCall.pauseCall]
                  let aTr := (resolveLoop env.appCands).trace.map candCalls
                  match appResultStep env.appToSearch env.appCands with
                  | Except.error e => (Except.error e, t1 ++ aTr, true)
                  | Except.ok _ =>
                    let t2 := t1 ++ aTr ++ [RemoteCall.pauseCall]
                    match installStep env.install with
                    | (Except.error e, btr) =>
                      (Except.error e, t2 ++ btr.map btnCalls, true)
                    | (Except.ok _, btr) =>
                      (Except.ok sid,
                        t2 ++ btr.map btnCalls ++ [RemoteCall.pauseCall], true)

/-- `runPlayStoreDownloadFlow(deviceName)` under environment `env`, with `td`
the outcome of the `driver.deleteSession()` teardown call.  The `catch` block
(lines 254-277) converts any thrown error into a failed `RunResult` with the
rounded elapsed duration, the error message and a null session id; the
`finally` block (lines 279-288) attempts teardown exactly when `driver` was
assigned, and swallows a teardown failure after logging it (`td` therefore
never influences the returned result).  The function also returns the run's
remote-call trace. -/
def runPlayStoreDownloadFlow (deviceName : String) (env : DeviceEnv)
    (td : Except String Unit) : RunResult × List RemoteCall :=
  match tryBody env with
  | (Except.ok sid, trace, driverCreated) =>
    (⟨deviceName, true, jsRound env.elapsedMs, none, some sid⟩,
      trace ++ if driverCreated then [RemoteCall.deleteSession] else [])
  | (Except.error msg, trace, driverCreated) =>
    (⟨deviceName, false, jsRound env.elapsedMs, some msg, none⟩,
      trace ++ if driverCreated then [RemoteCall.deleteSession] else [])

theorem count_delete_map_cand (l : List ResEvent) :
    (l.map candCalls).count RemoteCall.deleteSession = 0 := by
  induction l with
  | nil => simp
  | cons e t ih => cases e <;> simp [candCalls, List.count_cons, ih]

theorem count_delete_map_btn (l : List BtnEvent) :
    (l.map btnCalls).count RemoteCall.deleteSession = 0 := by
  induction l with
  | nil => simp
  | cons e t ih => cases e <;> simp [btnCalls, List.count_cons, ih]

/-- Within the `try` block no `deleteSession` call is ever made, and `driver`
ends up assigned exactly when both credentials are present and the `remote(...)`
session-open call succeeded. -/
theorem tryBody_shape (env : DeviceEnv) :
    (tryBody env).2.1.count RemoteCall.deleteSession = 0 ∧
    (tryBody env).2.2 = (env.username.isSome && env.accessKey.isSome &&
      exOk env.remoteResult) := by
  unfold tryBody
  cases hu : env.username <;> cases ha : env.accessKey <;> simp
  cases hr : env.remoteResult <;> simp [exOk]
  cases hs : env.sessionIdResult <;> simp [List.count_cons]
  cases hsb : searchBoxStep env.searchCands <;>
    simp [List.count_append, List.count_cons, count_delete_map_cand]
  cases hi : env.inputResolve <;>
    simp [List.count_append, List.count_cons, count_delete_map_cand]
  cases hd : env.inputDisplayed with
  | error e =>
    simp [List.count_append, List.count_cons, count_delete_map_cand]
  | ok b =>
    cases b with
    | false =>
      simp [List.count_append, List.count_cons, count_delete_map_cand]
    | true =>
      cases hsv : env.setValueRes <;>
        simp [List.count_append, List.count_cons, count_delete_map_cand]
      cases hpk : env.pressKeyRes <;>
        simp [List.count_append, List.count_cons, count_delete_map_cand]
      cases hap : appResultStep env.appToSearch env.appCands <;>
        simp [List.count_append, List.count_cons, count_delete_map_cand]
      rcases hin : installStep env.install with ⟨ir, btr⟩
      cases ir <;>
        simp [hin, List.count_append, List.count_cons, count_delete_map_cand,
          count_delete_map_btn]

/-- Claim C3: the `catch` block of `runPlayStoreDownloadFlow` converts every
error thrown inside the `try` body into a returned failed `RunResult` carrying
the rounded elapsed duration and the error's message.  Together with the
totality of `runPlayStoreDownloadFlow` (a plain function into `RunResult`,
with the teardown failure swallowed in the `finally`), this is the no-throw
run boundary: no error propagates to the batch orchestrator. -/
theorem C3_run_converts_errors (d : String) (env : DeviceEnv) (td : Except String Unit)
    (msg : String) (h : (tryBody env).1 = Except.error msg) :
    (runPlayStoreDownloadFlow d env td).1 =
      ⟨d, false, jsRound env.elapsedMs, some msg, none⟩ := by
  rcases htb : tryBody env with ⟨b, tr, dc⟩
  rw [htb] at h
  simp at h
  unfold runPlayStoreDownloadFlow
  rw [htb, h]

/-- Environment in which the remote session-open call itself fails. -/
def envRemoteFail : DeviceEnv :=
  ⟨some "user", some "key", Except.error "ECONNRESET", Except.ok "sid-1", [], Except.ok (),
    Except.ok true, Except.ok (), Except.ok (), [],
    ⟨Except.ok (), Except.ok true, Except.ok (), Except.ok (), Except.ok true, Except.ok ()⟩,
    "Google Chrome", 2400⟩

/-- Witness for Claim C3: a connection failure 2.4 s into the run is returned
as a failed result with duration 2 and the error message, not thrown. -/
theorem C3_run_converts_errors_witness :
    (runPlayStoreDownloadFlow "Galaxy S23" envRemoteFail (Except.ok ())).1 =
      ⟨"Galaxy S23", false, 2, some "ECONNRESET", none⟩ :=
  C3_run_converts_errors "Galaxy S23" envRemoteFail (Except.ok ()) "ECONNRESET" rfl

/-- Claim C4: with either credential absent (or empty), the run fails with the
missing-credentials configuration error of line 77 and makes no remote call of
any kind. -/
theorem C4_missing_credentials_no_remote_calls (d : String) (env : DeviceEnv)
    (td : Except String Unit) (h : env.username = none ∨ env.accessKey = none) :
    (runPlayStoreDownloadFlow d env td).1 =
      ⟨d, false, jsRound env.elapsedMs, some credsMissingMsg, none⟩ ∧
    (runPlayStoreDownloadFlow d env td).2 = [] := by
  have hb : (env.username.isNone || env.accessKey.isNone) = true := by
    rcases h with h | h <;> simp [h]
  unfold runPlayStoreDownloadFlow tryBody
  rw [hb]
  simp

/-- Environment with the username variable unset. -/
def envNoCreds : DeviceEnv :=
  ⟨none, some "key", Except.ok (), Except.ok "sid-2", [], Except.ok (), Except.ok true,
    Except.ok (), Except.ok (), [],
    ⟨Except.ok (), Except.ok true, Except.ok (), Except.ok (), Except.ok true, Except.ok ()⟩,
    "Google Chrome", 900⟩

/-- Witness for Claim C4 at a concrete credential-less environment. -/
theorem C4_missing_credentials_no_remote_calls_witness :
    (runPlayStoreDownloadFlow "Pixel 7" envNoCreds (Except.ok ())).1 =
      ⟨"Pixel 7", false, 1, some credsMissingMsg, none⟩ ∧
    (runPlayStoreDownloadFlow "Pixel 7" envNoCreds (Except.ok ())).2 = [] :=
  C4_missing_credentials_no_remote_calls "Pixel 7" envNoCreds (Except.ok ()) (Or.inl rfl)

/-- Environment with the access-key variable unset. -/
def envNoKey : DeviceEnv :=
  ⟨some "user", none, Except.ok (), Except.ok "sid-3", [], Except.ok (), Except.ok true,
    Except.ok (), Except.ok (), [],
    ⟨Except.ok (), Except.ok true, Except.ok (), Except.ok (), Except.ok true, Except.ok ()⟩,
    "Google Chrome", 100⟩

/-- Claim C6 counterexample: a failed run that never created a session (missing
access key) performs zero `deleteSession` calls — teardown is NOT attempted for
every run regardless of outcome. -/
theorem C6_no_teardown_without_session_cex :
    (runPlayStoreDownloadFlow "Galaxy S22" envNoKey (Except.ok ())).1.success = false ∧
    (runPlayStoreDownloadFlow "Galaxy S22" envNoKey (Except.ok ())).2.count
        RemoteCall.deleteSession = 0 :=
  ⟨rfl, rfl⟩

/-- Claim C6, amended: `deleteSession` is attempted exactly once iff the run
got as far as assigning `driver` (credentials present and the session-open
call succeeded), and zero times otherwise; the teardown outcome `td` — caught
and only logged by the inner try/catch of the `finally` block — never changes
the returned `RunResult`, in particular it never flips a successful run to a
failure. -/
theorem C6_teardown_once_iff_session_created (d : String) (env : DeviceEnv)
    (td tdB : Except String Unit) :
    ((runPlayStoreDownloadFlow d env td).2.count RemoteCall.deleteSession =
      if env.username.isSome && env.accessKey.isSome && exOk env.remoteResult
      then 1 else 0) ∧
    (runPlayStoreDownloadFlow d env td).1 = (runPlayStoreDownloadFlow d env tdB).1 := by
  obtain ⟨hc, hflag⟩ := tryBody_shape env
  rcases htb : tryBody env with ⟨b, tr, dc⟩
  rw [htb] at hc hflag
  simp at hc hflag
  unfold runPlayStoreDownloadFlow
  rw [htb]
  rw [← hflag]
  cases b <;> cases dc <;> simp [List.count_append, List.count_cons, hc]

/-- Claim C7: step 10 first resolves the Install button and checks its
visibility; a visible Install button is clicked and the Open/Update button is
never probed; otherwise the Open/Update button is resolved and checked, a
visible one is clicked, and if neither button is visible the step throws the
no-actionable-button error.  (Hypotheses fix the remote operations of the step
to return normally, as the claim speaks only about visibility outcomes.) -/
theorem C7_install_then_open_fallback (e : InstallEnv) (vi vo : Bool)
    (h1 : e.installResolve = Except.ok ()) (h2 : e.installDisplayed = Except.ok vi)
    (h3 : e.installClickRes = Except.ok ()) (h4 : e.openResolve = Except.ok ())
    (h5 : e.openDisplayed = Except.ok vo) (h6 : e.openClickRes = Except.ok ()) :
    installStep e =
      if vi then
        (Except.ok (), [BtnEvent.installFind, BtnEvent.installCheck, BtnEvent.installClickE])
      else if vo then
        (Except.ok (), [BtnEvent.installFind, BtnEvent.installCheck, BtnEvent.openFind,
          BtnEvent.openCheck, BtnEvent.openClickE])
      else
        (Except.error noButtonMsg,
          [BtnEvent.installFind, BtnEvent.installCheck, BtnEvent.openFind,
            BtnEvent.openCheck]) := by
  unfold installStep
  rw [h1, h2, h3, h4, h5, h6]
  cases vi <;> cases vo <;> simp

/-- Step-10 environment in which neither the Install button nor the Open/Update
button is visible. -/
def bothHiddenEnv : InstallEnv :=
  ⟨Except.ok (), Except.ok false, Except.ok (), Except.ok (), Except.ok false, Except.ok ()⟩

/-- Witness for Claim C7: with both buttons invisible the step probes Install
then Open and throws the no-actionable-button error. -/
theorem C7_install_then_open_fallback_witness :
    installStep bothHiddenEnv =
      (Except.error noButtonMsg,
        [BtnEvent.installFind, BtnEvent.installCheck, BtnEvent.openFind,
          BtnEvent.openCheck]) := by
  have h := C7_install_then_open_fallback bothHiddenEnv false false rfl rfl rfl rfl rfl rfl
  simpa using h

/-- Claim C10: a failed run always returns `sessionId = none` — the `catch`
block hard-codes `sessionId: null` even when `getSessionId` had already
produced an identifier — and only a successful run returns the obtained
session identifier. -/
theorem C10_failed_run_sessionId_none (d : String) (env : DeviceEnv)
    (td : Except String Unit) :
    ((runPlayStoreDownloadFlow d env td).1.success = false →
      (runPlayStoreDownloadFlow d env td).1.sessionId = none) ∧
    ((runPlayStoreDownloadFlow d env td).1.success = true →
      ∃ sid, (tryBody env).1 = Except.ok sid ∧
        (runPlayStoreDownloadFlow d env td).1.sessionId = some sid) := by
  rcases htb : tryBody env with ⟨b, tr, dc⟩
  unfold runPlayStoreDownloadFlow
  rw [htb]
  cases b <;> simp

/-- Environment in which the session is opened and its identifier obtained, but
the run later fails at step 10 (no actionable button). -/
def envLateFail : DeviceEnv :=
  ⟨some "user", some "key", Except.ok (), Except.ok "sess-99",
    [CandBehavior.displayed true false], Except.ok (), Except.ok true, Except.ok (),
    Except.ok (), [CandBehavior.displayed true false],
    ⟨Except.ok (), Except.ok false, Except.ok (), Except.ok (), Except.ok false, Except.ok ()⟩,
    "Google Chrome", 64000⟩

/-- Witness for Claim C10: the late-failing run had obtained session id
"sess-99", yet its returned result carries `sessionId = none`. -/
theorem C10_failed_run_sessionId_none_witness :
    (runPlayStoreDownloadFlow "Pixel 6" envLateFail (Except.ok ())).1.sessionId = none ∧
    envLateFail.sessionIdResult = Except.ok "sess-99" :=
  ⟨(C10_failed_run_sessionId_none "Pixel 6" envLateFail (Except.ok ())).1 rfl, rfl⟩

/-- Outcome appended to the batch's `results` for one device (script lines
318-349): the runner's own `RunResult` if its promise resolves, else the
synthesized zero-duration failure carrying the caught error's message. -/
def deviceOutcome (runner : String → Except String RunResult) (d : String) : RunResult :=
  match runner d with
  | Except.ok r => r
  | Except.error m => ⟨d, false, 0, some m, none⟩

/-- `runAllDevices` (script lines 295-376): iterate the configured device list
in order, appending one outcome per device; a device's failure — even a thrown
one — never aborts the loop.  The runner's behaviour is abstracted as a
function from device name to either a returned `RunResult` or a thrown error
message. -/
def runAllDevices (runner : String → Except String RunResult) :
    List String → List RunResult
  | [] => []
  | d :: rest => deviceOutcome runner d :: runAllDevices runner rest

theorem runAllDevices_eq_map (runner : String → Except String RunResult)
    (devices : List String) :
    runAllDevices runner devices = devices.map (deviceOutcome runner) := by
  induction devices with
  | nil => rfl
  | cons d rest ih => simp [runAllDevices, ih]

/-- Claim C2: the batch produces exactly one `RunResult` per configured device,
in configuration order (entry i describes device i), and a runner that throws
on some device yields the synthesized failed result with duration 0 and the
caught message at that device's position, without aborting the rest of the
batch.  The hypothesis states the per-device runner's contract that a returned
result names its own device, which `runPlayStoreDownloadFlow` satisfies. -/
theorem C2_batch_one_result_per_device (runner : String → Except String RunResult)
    (devices : List String)
    (hdev : ∀ d r, runner d = Except.ok r → r.device = d) :
    (runAllDevices runner devices).length = devices.length ∧
    (∀ i d, devices.get? i = some d →
      ∃ r, (runAllDevices runner devices).get? i = some r ∧ r.device = d) ∧
    (∀ i d m, devices.get? i = some d → runner d = Except.error m →
      (runAllDevices runner devices).get? i = some ⟨d, false, 0, some m, none⟩) := by
  refine ⟨?_, ?_, ?_⟩
  · rw [runAllDevices_eq_map]
    simp
  · intro i d hi
    refine ⟨deviceOutcome runner d, ?_, ?_⟩
    · rw [runAllDevices_eq_map, List.get?_map, hi]
      rfl
    · unfold deviceOutcome
      cases hr : runner d with
      | ok r => exact hdev d r hr
      | error m => rfl
  · intro i d m hi hr
    rw [runAllDevices_eq_map, List.get?_map, hi]
    simp [deviceOutcome, hr]

/-- Demonstration runner for the Claim C2 witness: its promise rejects on
"Pixel 7" and resolves with a result on every other device. -/
def demoRunner : String → Except String RunResult := fun d =>
  if d = "Pixel 7" then Except.error "session initialization crashed"
  else Except.ok ⟨d, true, 3, none, some "sid-7"⟩

/-- Witness for Claim C2: a two-device batch whose first device's runner throws
still yields two results, with the synthesized zero-duration failure first. -/
theorem C2_batch_one_result_per_device_witness :
    (runAllDevices demoRunner ["Pixel 7", "Galaxy S22"]).length = 2 ∧
    (runAllDevices demoRunner ["Pixel 7", "Galaxy S22"]).get? 0 =
      some ⟨"Pixel 7", false, 0, some "session initialization crashed", none⟩ :=
  have hc : ∀ d r, demoRunner d = Except.ok r → r.device = d := by
    intro d r h
    unfold demoRunner at h
    split at h
    · exact absurd h (by simp)
    · injection h with h2
      subst h2
      rfl
  ⟨(C2_batch_one_result_per_device demoRunner ["Pixel 7", "Galaxy S22"] hc).1,
    (C2_batch_one_result_per_device demoRunner ["Pixel 7", "Galaxy S22"] hc).2.2
      0 "Pixel 7" "session initialization crashed" rfl rfl⟩

/-- Successful-run count of the final tally (script line 394). -/
def successCount (rs : List RunResult) : Nat :=
  (rs.filter fun r => r.success).length

/-- Exit-code logic of the main-module block (script lines 392-402): when the
batch promise resolves, exit `successCount > 0 ? 0 : 1`; when it rejects (an
unhandled top-level error), exit 1. -/
def mainExitCode : Except String (List RunResult) → Nat
  | Except.ok rs => if 0 < successCount rs then 0 else 1
  | Except.error _ => 1

theorem successCount_pos (rs : List RunResult) :
    0 < successCount rs ↔ ∃ r ∈ rs, r.success = true := by
  induction rs with
  | nil => simp [successCount]
  | cons r t ih =>
    by_cases hr : r.success
    · simp [successCount, List.filter_cons, hr]
    · simp only [successCount, List.filter_cons] at ih ⊢
      simp [hr, ih]

/-- Claim C8: when the script runs as the main module, the process exit code is
0 iff the batch completed with at least one successful device run; in every
other case — all runs failed, or the batch promise rejected with an unhandled
top-level error — it is 1 (and the code is never anything else). -/
theorem C8_exit_code_policy (outcome : Except String (List RunResult)) :
    (mainExitCode outcome = 0 ↔
      ∃ rs, outcome = Except.ok rs ∧ ∃ r ∈ rs, r.success = true) ∧
    (mainExitCode outcome = 0 ∨ mainExitCode outcome = 1) := by
  cases outcome with
  | error e => simp [mainExitCode]
  | ok rs =>
    refine ⟨⟨?_, ?_⟩, ?_⟩
    · intro h0
      have hpos : 0 < successCount rs := by
        by_contra hneg
        simp [mainExitCode, hneg] at h0
      exact ⟨rs, rfl, (successCount_pos rs).mp hpos⟩
    · rintro ⟨rs2, heq, r, hrmem, hrs⟩
      injection heq with heq2
      subst heq2
      have hpos : 0 < successCount rs := (successCount_pos rs).mpr ⟨r, hrmem, hrs⟩
      simp [mainExitCode, hpos]
    · by_cases hpos : 0 < successCount rs <;> simp [mainExitCode, hpos]

/-- Shape of the `devices` field of a loaded `config.js` module, as seen by the
validation on line 28 of the script: absent/falsy, a JS array of names, or a
non-array object (the shipped `config.js` exports an object of categorized
arrays). -/
inductive DevicesField where
  | missing : DevicesField
  | arr (ds : List String) : DevicesField
  | obj (samsung premium others : List String) : DevicesField
deriving DecidableEq, Repr

/-- The part of a loaded configuration module the device-list validation
inspects. -/
structure RawConfig where
  devices : DevicesField
deriving DecidableEq, Repr

/-- `DEFAULT_CONFIG.devices` (script lines 6-12). -/
def DEFAULT_DEVICES : List String :=
  ["Galaxy S23", "Galaxy S22", "Pixel 7", "Pixel 6", "Galaxy S24"]

/-- Device list obtained by the config-loading block (script lines 22-41): a
failed `require('./config')` falls back to the whole default config; a loaded
config whose `devices` is missing, not an array, or an empty array has it
replaced by the default device list.  A total function: configuration loading
never raises. -/
def loadConfigDevices : Except String RawConfig → List String
  | Except.error _ => DEFAULT_DEVICES
  | Except.ok c =>
    match c.devices with
    | DevicesField.arr (d :: ds) => d :: ds
    | _ => DEFAULT_DEVICES

/-- The `devices` export of the repository's shipped `config.js` (lines 9-25):
a categorized object, not an array. -/
def shippedConfig : RawConfig :=
  ⟨DevicesField.obj
    ["Samsung Galaxy S20", "Samsung Galaxy S21", "Samsung Galaxy Note 20",
      "Samsung Galaxy S20+", "Samsung Galaxy S25"]
    ["OnePlus 9", "iPhone 12", "iPhone 13"]
    ["Huawei P40"]⟩

/-- The line 28 test: `!config.devices || !Array.isArray(config.devices) ||
config.devices.length === 0`, together with the `require` throwing. -/
def invalidDevices : Except String RawConfig → Bool
  | Except.error _ => true
  | Except.ok c =>
    match c.devices with
    | DevicesField.arr (_ :: _) => false
    | _ => true

/-- Claim C9: whenever the loaded configuration's device list is missing, not
an array (as in the shipped `config.js`, whose `devices` field is a
categorized object), or empty — or the `require` itself failed — the loader
substitutes the built-in default device list, logging only a warning;
`loadConfigDevices` is total, so configuration loading never raises. -/
theorem C9_invalid_devices_fallback (raw : Except String RawConfig)
    (h : invalidDevices raw = true) :
    loadConfigDevices raw = DEFAULT_DEVICES := by
  cases raw with
  | error e => rfl
  | ok c =>
    cases hc : c.devices with
    | missing => simp [loadConfigDevices, hc]
    | obj s p o => simp [loadConfigDevices, hc]
    | arr ds =>
      cases ds with
      | nil => simp [loadConfigDevices, hc]
      | cons d t =>
        simp [invalidDevices, hc] at h

/-- Witness for Claim C9: the shipped `config.js` itself (non-array `devices`)
is replaced by the default device list. -/
theorem C9_invalid_devices_fallback_witness :
    loadConfigDevices (Except.ok shippedConfig) = DEFAULT_DEVICES :=
  C9_invalid_devices_fallback (Except.ok shippedConfig) rfl
